import Mathlib

set_option autoImplicit false

/-!
Shallow embedding of the slack-code-agent repository: the cursor-CLI
invoker (sendPromptOnce / sendPrompt retry loop), the file-backed store
(poll cursors and per-channel session data), and the poll loop /
command dispatch in index.ts.  External I/O (the Slack client, the
filesystem, subprocess execution) is modelled by explicit parameters
and an effect trace.
-/

namespace SlackCodeAgent

/-- Check `pat` against every suffix of the list: true when `pat` is a
prefix of some suffix, i.e. a contiguous sublist. -/
def containsSubstrAux (pat : List Char) : List Char → Bool
  | [] => pat.isEmpty
  | c :: rest => pat.isPrefixOf (c :: rest) || containsSubstrAux pat rest

/-- Model of JS `String.prototype.includes`: `containsSubstr s pat` is true
when `pat` occurs as a contiguous substring of `s`. -/
def containsSubstr (s pat : String) : Bool :=
  containsSubstrAux pat.toList s.toList

/-- Model of JS `String.prototype.toLowerCase` (the sources only lower
ASCII text), implemented over the character list. -/
def jsToLower (s : String) : String :=
  String.mk (s.toList.map Char.toLower)

/-- Model of JS `String.prototype.trim`: strip whitespace from both ends. -/
def jsTrim (s : String) : String :=
  String.mk (((s.toList.dropWhile Char.isWhitespace).reverse.dropWhile
    Char.isWhitespace).reverse)

/-- Model of JS `String.prototype.startsWith`. -/
def jsStartsWith (s pat : String) : Bool :=
  pat.toList.isPrefixOf s.toList

/-- Model of JS `String.prototype.substring(0, n)` (and `.take`), counting
in characters. -/
def jsTake (s : String) (n : Nat) : String :=
  String.mk (s.toList.take n)

/-- Drop the first `n` characters of a string. -/
def jsDrop (s : String) (n : Nat) : String :=
  String.mk (s.toList.drop n)

/-- Length of a string in characters (the sources only measure lengths of
texts where JS UTF-16 length and character count agree in spirit). -/
def jsLength (s : String) : Nat :=
  s.toList.length

/-- Model of the regex `/rate.?limit/i` applied at the head of a character
list (case already lowered by the caller): "rate" followed by "limit" with
zero or one arbitrary character in between. -/
def rateLimitAt (l : List Char) : Bool :=
  "rate".toList.isPrefixOf l &&
    ("limit".toList.isPrefixOf (l.drop 4) || "limit".toList.isPrefixOf (l.drop 5))

/-- Search `/rate.?limit/` at every position of the list. -/
def rateLimitSearch : List Char → Bool
  | [] => false
  | c :: rest => rateLimitAt (c :: rest) || rateLimitSearch rest

/-- Model of `isRetryable` (cursor.ts lines 42-52): the five
`RETRYABLE_PATTERNS` case-insensitive regexes, four of which are literal
substrings; `/rate.?limit/i` is handled by `rateLimitSearch`. -/
def isRetryable (text : String) : Bool :=
  let t := jsToLower text
  containsSubstr t "resource_exhausted" ||
  rateLimitSearch t.toList ||
  containsSubstr t "too many requests" ||
  containsSubstr t "service unavailable" ||
  containsSubstr t "timeout"

/-- Model of the `CursorResponse` interface (types.ts lines 11-20). -/
structure CursorResponse where
  type : String
  subtype : String
  is_error : Bool
  duration_ms : Nat
  duration_api_ms : Nat
  result : String
  session_id : String
  request_id : String
deriving DecidableEq, Repr

/-- Model of a JS `Error` as raised by cursor.ts: the message together with
the ad-hoc `retryable` property.  In the source the property is sometimes
left unset (`undefined`); since the retry loop tests `retryable === true`,
an unset property behaves exactly like `false`, so it is modelled as
`retryable := false`. -/
structure CursorError where
  message : String
  retryable : Bool
deriving DecidableEq, Repr

/-- Model of the `close` handler of `sendPromptOnce` (cursor.ts lines
81-118).  `parseJson` stands for `JSON.parse` returning a `CursorResponse`
(`none` models a parse exception), `code` is the subprocess exit code
(any nonzero value also covers the null code after a timeout kill), and
`stdout`/`stderr` are the collected streams.  Branches, in source order:
the "error text outside JSON" heuristic, the nonzero-exit check, the
structured parse with its embedded `is_error` flag, and the lenient
raw-text fallback. -/
def sendPromptOnceClose (parseJson : String → Option CursorResponse)
    (code : Int) (stdout stderr : String) : Except CursorError String :=
  let output := jsTrim stdout
  if containsSubstr (jsToLower output) "error" && !(jsStartsWith output "\x7b") then
    Except.error ⟨output, isRetryable (output ++ stderr)⟩
  else if code ≠ 0 then
    let msg := if stderr ≠ "" then stderr else if stdout ≠ "" then stdout else "Unknown error"
    Except.error ⟨msg, isRetryable msg⟩
  else
    match parseJson output with
    | some response =>
      if response.is_error then Except.error ⟨response.result, false⟩
      else Except.ok response.result
    | none =>
      if output ≠ "" then Except.ok output
      else Except.error ⟨"Empty response from Cursor", false⟩

/-- Model of the backoff computation on cursor.ts line 137:
`Math.min(1000 * Math.pow(2, attempt - 1), 30000)`. -/
def retryDelay (attempt : Nat) : Nat :=
  min (1000 * 2 ^ (attempt - 1)) 30000

/-- Delay waited before a given attempt: the loop (cursor.ts lines
135-140) waits `retryDelay attempt` only when `attempt > 0`; the first
attempt starts immediately. -/
def delayBefore (attempt : Nat) : Nat :=
  if attempt = 0 then 0 else retryDelay attempt

/-- Trace of one `sendPrompt` run: the final result, how many times
`sendPromptOnce` was invoked, and the delay waited before each attempt
(in attempt order). -/
structure SendTrace where
  result : Except CursorError String
  numAttempts : Nat
  delays : List Nat
deriving Repr

/-- Model of the retry loop of `sendPrompt` (cursor.ts lines 135-153),
re-indexed for structural recursion: `remaining = maxRetries - attempt`,
so the source guard `attempt >= maxRetries` is `remaining = 0`.
`outcome k` is the result of the `k`-th `sendPromptOnce` invocation.
A success returns at once; a failure is rethrown immediately unless it is
retryable (`retryable === true`) and attempts remain. -/
def sendPromptGo (outcome : Nat → Except CursorError String) :
    Nat → Nat → SendTrace
  | attempt, 0 =>
    match outcome attempt with
    | Except.ok s => ⟨Except.ok s, 1, [delayBefore attempt]⟩
    | Except.error e => ⟨Except.error e, 1, [delayBefore attempt]⟩
  | attempt, r + 1 =>
    match outcome attempt with
    | Except.ok s => ⟨Except.ok s, 1, [delayBefore attempt]⟩
    | Except.error e =>
      if e.retryable then
        let rest := sendPromptGo outcome (attempt + 1) r
        ⟨rest.result, rest.numAttempts + 1, delayBefore attempt :: rest.delays⟩
      else
        ⟨Except.error e, 1, [delayBefore attempt]⟩

/-- Model of `sendPrompt` (cursor.ts lines 127-156): run the attempt loop
from attempt 0 with `maxRetries` retries remaining (the source default is
`maxRetries = 3`). -/
def sendPromptModel (outcome : Nat → Except CursorError String)
    (maxRetries : Nat) : SendTrace :=
  sendPromptGo outcome 0 maxRetries

/-- Model of the `ChannelData` record (types.ts lines 1-5): the per-channel
session persisted in `data/channels/<channel_id>.json`. -/
structure ChannelData where
  projectPath : String
  cursorChatId : String
  createdAt : String
deriving DecidableEq, Repr

/-- Model of the persisted store (store.ts): `cursors` is the
channel-to-`lastSeenTs` mapping held in `state.json`, `channelData` the
per-channel session files.  Both are total maps to `Option`, `none`
modelling an absent entry / missing file. -/
structure BotState where
  cursors : String → Option String
  channelData : String → Option ChannelData

/-- Model of `getLastSeenTs` (store.ts lines 32-35). -/
def getLastSeenTs (st : BotState) (channelId : String) : Option String :=
  st.cursors channelId

/-- Model of `setLastSeenTs` (store.ts lines 37-45): load the whole state,
overwrite (or create) the entry for `channelId`, save.  Both source
branches amount to a single-key update. -/
def setLastSeenTs (st : BotState) (channelId ts : String) : BotState :=
  { st with cursors := fun c => if c = channelId then some ts else st.cursors c }

/-- Model of `loadChannelData` (store.ts lines 52-60). -/
def loadChannelData (st : BotState) (channelId : String) : Option ChannelData :=
  st.channelData channelId

/-- Model of `saveChannelData` (store.ts lines 62-66): rewrite the one
file keyed by `channelId`. -/
def saveChannelData (st : BotState) (channelId : String) (data : ChannelData) :
    BotState :=
  { st with channelData := fun c => if c = channelId then some data else st.channelData c }

/-- Model of `deleteChannelData` (store.ts lines 68-73). -/
def deleteChannelData (st : BotState) (channelId : String) : BotState :=
  { st with channelData := fun c => if c = channelId then none else st.channelData c }

/-- Configuration subset read by index.ts and slack.ts.  An empty
`baseProjectPath` models the unset case (`""` is falsy in JS, matching
config.ts line 19). -/
structure BotConfig where
  slackBotUserId : String
  baseProjectPath : String

/-- Model of a Slack message as produced by `getHistory` (slack.ts
lines 162-167). -/
structure SlackMessage where
  ts : String
  user : Option String
  text : Option String
  bot_id : Option String
deriving DecidableEq, Repr

/-- Model of `mentionsBot` (slack.ts lines 299-302). -/
def mentionsBot (cfg : BotConfig) (text : Option String) : Bool :=
  match text with
  | none => false
  | some t => containsSubstr t ("<@" ++ cfg.slackBotUserId ++ ">")

/-- Replace every occurrence of a nonempty pattern, fuel-indexed for
structural recursion (the fuel is the input length, which bounds the
number of steps). -/
def replaceAllAux (pat repl : List Char) : Nat → List Char → List Char
  | 0, l => l
  | _ + 1, [] => []
  | fuel + 1, c :: rest =>
    if pat ≠ [] && pat.isPrefixOf (c :: rest) then
      repl ++ replaceAllAux pat repl fuel (rest.drop (pat.length - 1))
    else
      c :: replaceAllAux pat repl fuel rest

/-- Model of JS `String.prototype.replace` with a global literal pattern. -/
def jsReplaceAll (s pat repl : String) : String :=
  String.mk (replaceAllAux pat.toList repl.toList s.toList.length s.toList)

/-- Model of `removeBotMention` (slack.ts lines 307-309): delete every
`<@botUserId>` occurrence, then trim. -/
def removeBotMention (cfg : BotConfig) (text : String) : String :=
  jsTrim (jsReplaceAll text ("<@" ++ cfg.slackBotUserId ++ ">") "")

/-- Model of `resolveProjectPath` (index.ts lines 18-26).  `path.isAbsolute`
is modelled as a leading `/` (POSIX) and `path.join` as separator
concatenation. -/
def resolveProjectPath (cfg : BotConfig) (inputPath : String) : String :=
  if jsStartsWith inputPath "/" then inputPath
  else if cfg.baseProjectPath ≠ "" then cfg.baseProjectPath ++ "/" ++ inputPath
  else inputPath

/-- Model of `PROJECTS_COMMAND_REGEX = /^\/projects\s*$/` (index.ts
line 15). -/
def matchProjectsCommand (s : String) : Bool :=
  jsStartsWith s "/projects" && (jsDrop s 9).toList.all Char.isWhitespace

/-- Model of `DIFF_COMMAND_REGEX = /^\/diff\s*$/` (index.ts line 16). -/
def matchDiffCommand (s : String) : Bool :=
  jsStartsWith s "/diff" && (jsDrop s 5).toList.all Char.isWhitespace

/-- Model of `NEW_COMMAND_REGEX = /^\/new\s+(.+)$/` (index.ts line 14),
returning the capture group.  After `/new` there must be at least one
whitespace character; the capture is the remainder after the greedy
whitespace run, which must be nonempty and newline-free (`.` does not
match a newline and `$` only matches at the very end).  When the
remainder is all whitespace the engine backtracks and the capture is the
final whitespace character, provided it is not a newline. -/
def matchNewCommand (s : String) : Option String :=
  if jsStartsWith s "/new" then
    match (jsDrop s 4).toList with
    | [] => none
    | c :: _ =>
      if c.isWhitespace then
        let rest := (jsDrop s 4).toList
        let arg := rest.dropWhile Char.isWhitespace
        if arg = [] then
          match rest.getLast? with
          | some c2 => if c2 ≠ '\n' && rest.length ≥ 2 then some (String.mk [c2]) else none
          | none => none
        else if arg.all (fun ch => ch ≠ '\n') then some (String.mk arg)
        else none
      else none
  else none

/-- Observable external actions of the dispatcher, in emission order. -/
inductive Effect where
  | postMessage (channelId text : String)
  | updateMessage (channelId ts text : String)
  | addReaction (channelId ts emoji : String)
  | removeReaction (channelId ts emoji : String)
  | createChatCall (workspace : String)
  | sendPromptCall (chatId workspace prompt : String)
  | gitDiffCall (cwd : String)
deriving DecidableEq, Repr

/-- One entry of `fs.readdirSync(..., { withFileTypes: true })`. -/
structure DirEntry where
  name : String
  isDirectory : Bool
deriving DecidableEq, Repr

/-- Environment of external collaborators consumed by index.ts: filesystem
probes, the cursor CLI, git, and the ts handle Slack returns for the
provisional status message. -/
structure Env where
  pathExists : String → Bool
  createChat : String → Except String String
  postMessageTs : Option String
  now : String
  readDir : String → Except String (List DirEntry)
  gitDiff : String → Except String String
  sendPromptResult : String → String → Except CursorError String

/-- Model of `handleProjectsCommand` (index.ts lines 28-53): list immediate
subdirectories of the base path, hidden entries excluded, sorted; the
unset-base-path, empty, and readdir-failure cases each post a distinct
message. -/
def handleProjectsCommand (env : Env) (cfg : BotConfig) (channelId : String) :
    List Effect :=
  if cfg.baseProjectPath = "" then
    [Effect.postMessage channelId "⚠️ No base project path configured."]
  else
    match env.readDir cfg.baseProjectPath with
    | Except.error msg =>
      [Effect.postMessage channelId ("❌ Failed to list projects: " ++ msg)]
    | Except.ok entries =>
      let dirs := ((entries.filter
          (fun e => e.isDirectory && !(jsStartsWith e.name "."))).map
            DirEntry.name).mergeSort (fun a b => decide (a ≤ b))
      if dirs = [] then
        [Effect.postMessage channelId "📁 No projects found."]
      else
        [Effect.postMessage channelId ("📁 *Projects in " ++ cfg.baseProjectPath ++
          ":*\n" ++ String.intercalate "\n" (dirs.map (fun d => "• `" ++ d ++ "`")))]

/-- Model of `handleDiffCommand` (index.ts lines 55-94): needs an active
session; runs `git diff` in the project directory, posts "no changes" for
an empty diff, truncates past 3500 characters with a marker, and
distinguishes "not a git repository" from other failures. -/
def handleDiffCommand (env : Env) (channelId : String)
    (channelData : Option ChannelData) : List Effect :=
  match channelData with
  | none =>
    [Effect.postMessage channelId "💡 No active conversation. Use `/new <project>` first."]
  | some cd =>
    Effect.gitDiffCall cd.projectPath ::
    match env.gitDiff cd.projectPath with
    | Except.ok diff =>
      if jsTrim diff = "" then
        [Effect.postMessage channelId "✨ No uncommitted changes."]
      else
        let maxLength := 3500
        let truncated := jsLength diff > maxLength
        let output := if jsLength diff > maxLength then jsTake diff maxLength else diff
        [Effect.postMessage channelId ("📝 *Git diff for* `" ++ cd.projectPath ++
          "`:\n```diff\n" ++ output ++ "```" ++
          (if truncated then "\n_(truncated)_" else ""))]
    | Except.error msg =>
      if containsSubstr msg "not a git repository" then
        [Effect.postMessage channelId "❌ Not a git repository."]
      else
        [Effect.postMessage channelId ("❌ Failed to get diff: " ++ msg)]

/-- Model of `handleNewCommand` (index.ts lines 96-128): resolve the path;
if it does not exist on the filesystem, post a failure and stop (the
agent is not contacted and the store is untouched); otherwise post a
provisional status, invoke `createChat`, persist the resulting session
on success, and update the provisional message with the outcome. -/
def handleNewCommand (env : Env) (cfg : BotConfig) (st : BotState)
    (channelId projectName : String) : BotState × List Effect :=
  let projectPath := resolveProjectPath cfg projectName
  if !(env.pathExists projectPath) then
    (st, [Effect.postMessage channelId ("❌ Path does not exist: `" ++ projectPath ++ "`")])
  else
    let provisional := Effect.postMessage channelId
      ("⏳ Creating conversation for `" ++ projectPath ++ "`...")
    match env.createChat projectPath with
    | Except.ok chatId =>
      let st2 := saveChannelData st channelId ⟨projectPath, chatId, env.now⟩
      let tail := match env.postMessageTs with
        | some ts => [Effect.updateMessage channelId ts
            ("✅ Started conversation for `" ++ projectPath ++ "`")]
        | none => []
      (st2, provisional :: Effect.createChatCall projectPath :: tail)
    | Except.error msg =>
      let tail := match env.postMessageTs with
        | some ts => [Effect.updateMessage channelId ts
            ("❌ Failed to create conversation: " ++ msg)]
        | none => [Effect.postMessage channelId ("❌ Failed to create conversation: " ++ msg)]
      (st, provisional :: Effect.createChatCall projectPath :: tail)

/-- Model of the user-facing error formatting in `handlePrompt` (index.ts
lines 162-169). -/
def formatPromptError (msg : String) : String :=
  "❌ *Error processing your request*\n" ++
  (if containsSubstr msg "resource_exhausted" then
    "```Rate limit exceeded. Please wait a moment and try again.```"
  else if containsSubstr msg "timeout" || containsSubstr msg "Timeout" then
    "```Request timed out. The operation took too long.```"
  else
    "```" ++ jsTake msg 500 ++ "```")

/-- Model of `handlePrompt` (index.ts lines 130-172): mark the message with
an hourglass reaction, forward the prompt, then swap the reaction for a
check or a cross and post the response or a formatted error. -/
def handlePrompt (env : Env) (channelId messageTs prompt : String)
    (cd : ChannelData) : List Effect :=
  Effect.addReaction channelId messageTs "hourglass_flowing_sand" ::
  Effect.sendPromptCall cd.cursorChatId cd.projectPath prompt ::
  match env.sendPromptResult cd.cursorChatId prompt with
  | Except.ok response =>
    [Effect.removeReaction channelId messageTs "hourglass_flowing_sand",
     Effect.addReaction channelId messageTs "white_check_mark",
     Effect.postMessage channelId response]
  | Except.error e =>
    [Effect.removeReaction channelId messageTs "hourglass_flowing_sand",
     Effect.addReaction channelId messageTs "x",
     Effect.postMessage channelId (formatPromptError e.message)]

/-- Model of `processMessage` (index.ts lines 174-209): strip the bot
mention, then try `/projects`, `/new`, `/diff` in order; otherwise forward
to the agent when a session exists, or post the usage hint. -/
def processMessage (env : Env) (cfg : BotConfig) (st : BotState)
    (channelId : String) (message : SlackMessage) : BotState × List Effect :=
  let text := message.text.getD ""
  let cleanText := removeBotMention cfg text
  if matchProjectsCommand cleanText then
    (st, handleProjectsCommand env cfg channelId)
  else
    match matchNewCommand cleanText with
    | some captured => handleNewCommand env cfg st channelId (jsTrim captured)
    | none =>
      if matchDiffCommand cleanText then
        (st, handleDiffCommand env channelId (loadChannelData st channelId))
      else
        match loadChannelData st channelId with
        | none =>
          (st, [Effect.postMessage channelId
            "💡 No active conversation. Use `/new <project>` to start one.\nUse `/projects` to see available projects."])
        | some cd => (st, handlePrompt env channelId message.ts cleanText cd)

/-- Result of one `pollChannel` run: the final store state, the emitted
effects, and the timestamps of the messages handed to `processMessage`. -/
structure PollResult where
  state : BotState
  effects : List Effect
  processed : List String

/-- Model of the message loop of `pollChannel` (index.ts lines 225-238):
advance the cursor to each message before processing, skip bot messages,
and skip messages when the channel has no session and the bot is not
mentioned. -/
def pollMessages (env : Env) (cfg : BotConfig) :
    BotState → String → List SlackMessage → PollResult
  | st, _, [] => ⟨st, [], []⟩
  | st, channelId, m :: rest =>
    let st1 := setLastSeenTs st channelId m.ts
    if m.bot_id.isSome then pollMessages env cfg st1 channelId rest
    else
      let channelData := loadChannelData st1 channelId
      let mentions := mentionsBot cfg m.text
      if channelData.isNone && !mentions then pollMessages env cfg st1 channelId rest
      else
        let pr := processMessage env cfg st1 channelId m
        let restR := pollMessages env cfg pr.1 channelId rest
        ⟨restR.state, pr.2 ++ restR.effects, m.ts :: restR.processed⟩

/-- Model of `pollChannel` (index.ts lines 211-242).  `messages` is the
result of the history fetch for this cycle (oldest first, so the newest
message is the last).  When the channel has no cursor and history is
nonempty, the first-poll baseline marks everything seen without
processing; otherwise each fetched message runs through the loop. -/
def pollChannel (env : Env) (cfg : BotConfig) (st : BotState)
    (channelId : String) (messages : List SlackMessage) : PollResult :=
  match getLastSeenTs st channelId, messages.getLast? with
  | none, some latest => ⟨setLastSeenTs st channelId latest.ts, [], []⟩
  | _, _ => pollMessages env cfg st channelId messages

/-! Helper lemmas about the retry loop. -/

/-- A successful attempt returns at once, whatever the remaining budget. -/
theorem sendPromptGo_ok (outcome : Nat → Except CursorError String) (a r : Nat)
    (s : String) (h : outcome a = Except.ok s) :
    sendPromptGo outcome a r = ⟨Except.ok s, 1, [delayBefore a]⟩ := by
  cases r <;> simp [sendPromptGo, h]

/-- A non-retryable failure (or any failure with no budget left) stops the
loop at once. -/
theorem sendPromptGo_stop (outcome : Nat → Except CursorError String) (a r : Nat)
    (e : CursorError) (h : outcome a = Except.error e)
    (hstop : e.retryable = false ∨ r = 0) :
    sendPromptGo outcome a r = ⟨Except.error e, 1, [delayBefore a]⟩ := by
  rcases hstop with hr | hr
  · cases r <;> simp [sendPromptGo, h, hr]
  · subst hr; simp [sendPromptGo, h]

/-- A retryable failure with budget left recurses into the next attempt. -/
theorem sendPromptGo_step (outcome : Nat → Except CursorError String) (a r : Nat)
    (e : CursorError) (h : outcome a = Except.error e) (hr : e.retryable = true) :
    sendPromptGo outcome a (r + 1) =
      ⟨(sendPromptGo outcome (a + 1) r).result,
       (sendPromptGo outcome (a + 1) r).numAttempts + 1,
       delayBefore a :: (sendPromptGo outcome (a + 1) r).delays⟩ := by
  simp [sendPromptGo, h, hr]

/-- When every attempt fails, the loop's result is the error of the last
attempt it made. -/
theorem sendPromptGo_allFail (out2 : Nat → Except CursorError String)
    (es : Nat → CursorError) (h : ∀ i, out2 i = Except.error (es i)) :
    ∀ (r a : Nat), (sendPromptGo out2 a r).result =
      Except.error (es (a + (sendPromptGo out2 a r).numAttempts - 1)) := by
  intro r
  induction r with
  | zero => intro a; simp [sendPromptGo, h a]
  | succ r ih =>
    intro a
    by_cases hr : (es a).retryable = true
    · rw [sendPromptGo_step out2 a r (es a) (h a) hr]
      have hrec := ih (a + 1)
      simp only [] at hrec ⊢
      rw [hrec]
      have harith : a + 1 + (sendPromptGo out2 (a + 1) r).numAttempts - 1 =
          a + ((sendPromptGo out2 (a + 1) r).numAttempts + 1) - 1 := by omega
      rw [harith]
    · have hr' : (es a).retryable = false := by simpa using hr
      rw [sendPromptGo_stop out2 a (r + 1) (es a) (h a) (Or.inl hr')]
      simp

/-! Helper lemmas about the store and the poll loop. -/

/-- Updating the cursor of a channel stores exactly that timestamp. -/
theorem setLastSeenTs_self (st : BotState) (c ts : String) :
    (setLastSeenTs st c ts).cursors c = some ts := by
  simp [setLastSeenTs]

/-- `handleNewCommand` never touches the cursor map: its only store write
is `saveChannelData`. -/
theorem handleNewCommand_cursors (env : Env) (cfg : BotConfig) (st : BotState)
    (channelId projectName : String) :
    ((handleNewCommand env cfg st channelId projectName).1).cursors = st.cursors := by
  unfold handleNewCommand
  cases hp : env.pathExists (resolveProjectPath cfg projectName) <;>
    cases hc : env.createChat (resolveProjectPath cfg projectName) <;>
      cases hts : env.postMessageTs <;>
        simp [hp, hc, hts, saveChannelData]

/-- `processMessage` never touches the cursor map: every dispatch branch
either leaves the store alone or goes through `handleNewCommand`. -/
theorem processMessage_cursors (env : Env) (cfg : BotConfig) (st : BotState)
    (channelId : String) (m : SlackMessage) :
    ((processMessage env cfg st channelId m).1).cursors = st.cursors := by
  unfold processMessage
  by_cases h1 : matchProjectsCommand (removeBotMention cfg (m.text.getD "")) = true
  · simp [h1]
  · cases h2 : matchNewCommand (removeBotMention cfg (m.text.getD "")) with
    | some captured => simp [h1, h2, handleNewCommand_cursors]
    | none =>
      by_cases h3 : matchDiffCommand (removeBotMention cfg (m.text.getD "")) = true
      · simp [h1, h2, h3]
      · cases h4 : loadChannelData st channelId <;> simp [h1, h2, h3, h4]

/-- After the message loop, the channel's cursor is the timestamp of the
last message in the list, or unchanged when the list is empty. -/
theorem pollMessages_cursor (env : Env) (cfg : BotConfig) (channelId : String) :
    ∀ (msgs : List SlackMessage) (st : BotState),
      (pollMessages env cfg st channelId msgs).state.cursors channelId =
        match msgs.getLast? with
        | some m => some m.ts
        | none => st.cursors channelId := by
  intro msgs
  induction msgs with
  | nil => intro st; simp [pollMessages]
  | cons m rest ih =>
    intro st
    have hstep : ∀ st1 : BotState, st1.cursors channelId = some m.ts →
        (pollMessages env cfg st1 channelId rest).state.cursors channelId =
          match (m :: rest).getLast? with
          | some m2 => some m2.ts
          | none => st.cursors channelId := by
      intro st1 h1
      rw [ih st1]
      cases rest with
      | nil => simpa using h1
      | cons m2 rest2 =>
        rw [List.getLast?_cons_cons]
        rcases hl : (m2 :: rest2).getLast? with _ | x
        · exact absurd (List.getLast?_eq_none_iff.mp hl) (by simp)
        · rfl
    simp only [pollMessages]
    by_cases hb : m.bot_id.isSome = true
    · rw [if_pos hb]
      exact hstep _ (setLastSeenTs_self st channelId m.ts)
    · rw [if_neg hb]
      by_cases hskip : ((loadChannelData (setLastSeenTs st channelId m.ts) channelId).isNone
          && !(mentionsBot cfg m.text)) = true
      · rw [if_pos hskip]
        exact hstep _ (setLastSeenTs_self st channelId m.ts)
      · rw [if_neg hskip]
        apply hstep
        rw [congrFun (processMessage_cursors env cfg
          (setLastSeenTs st channelId m.ts) channelId m) channelId]
        exact setLastSeenTs_self st channelId m.ts

/-! The claims. -/

/-- C1, counterexample.  The claim predicts that an attempt whose output
parses as a structured response with `is_error` set and a retryable result
text ("resource_exhausted: quota") is classified retryable and retried.
On the code, the `is_error` rejection (cursor.ts line 107) attaches no
`retryable` property, so even though `isRetryable` holds of the result
text, `sendPrompt` makes exactly one attempt and propagates the error:
here every attempt would produce that structured output, yet the trace
stops after attempt 0 with a non-retryable error. -/
theorem c1_isError_not_retried_cex :
    sendPromptModel (fun _ =>
      sendPromptOnceClose
        (fun s =>
          if s = "\x7b\"is_error\":true,\"result\":\"resource_exhausted: quota\"\x7d" then
            some ⟨"result", "error", true, 0, 0, "resource_exhausted: quota", "s1", "r1"⟩
          else none)
        0 "\x7b\"is_error\":true,\"result\":\"resource_exhausted: quota\"\x7d" "") 3 =
      ⟨Except.error ⟨"resource_exhausted: quota", false⟩, 1, [0]⟩ ∧
    isRetryable "resource_exhausted: quota" = true := by
  constructor
  · rfl
  · decide

/-- C1, amended.  When an attempt's output (exit code 0, error heuristic
not triggered) parses as a structured response whose `is_error` flag is
set, the failure carries the embedded result text, is NOT classified
retryable, and `sendPrompt` propagates it immediately: one attempt, no
delay, regardless of whether the result text matches a retryable
pattern. -/
theorem c1_isError_propagates_immediately
    (parseJson : String → Option CursorResponse) (stdout stderr : String)
    (r : CursorResponse) (outcome : Nat → Except CursorError String)
    (hheur : (containsSubstr (jsToLower (jsTrim stdout)) "error" &&
      !(jsStartsWith (jsTrim stdout) "\x7b")) = false)
    (hparse : parseJson (jsTrim stdout) = some r)
    (hise : r.is_error = true)
    (hout : outcome 0 = sendPromptOnceClose parseJson 0 stdout stderr) :
    sendPromptModel outcome 3 = ⟨Except.error ⟨r.result, false⟩, 1, [0]⟩ := by
  have h1 : outcome 0 = Except.error ⟨r.result, false⟩ := by
    rw [hout]; unfold sendPromptOnceClose; simp [hheur, hparse, hise]
  simp [sendPromptModel, sendPromptGo, h1, delayBefore]

/-- C1, witness for the amended theorem at a concrete structured error
response. -/
theorem c1_isError_propagates_immediately_witness :
    sendPromptModel (fun _ =>
      sendPromptOnceClose
        (fun s =>
          if s = "\x7b\"is_error\":true,\"result\":\"boom\"\x7d" then
            some ⟨"result", "error", true, 0, 0, "boom", "s1", "r1"⟩
          else none)
        0 "\x7b\"is_error\":true,\"result\":\"boom\"\x7d" "") 3 =
      ⟨Except.error ⟨"boom", false⟩, 1, [0]⟩ := by
  exact c1_isError_propagates_immediately
    (fun s =>
      if s = "\x7b\"is_error\":true,\"result\":\"boom\"\x7d" then
        some ⟨"result", "error", true, 0, 0, "boom", "s1", "r1"⟩
      else none)
    "\x7b\"is_error\":true,\"result\":\"boom\"\x7d" ""
    ⟨"result", "error", true, 0, 0, "boom", "s1", "r1"⟩
    _ (by decide) (by decide) rfl rfl

/-- C2, counterexample.  The claim says an attempt whose output cannot be
parsed but whose trimmed text is non-empty always succeeds with the raw
text, failing only on empty output.  On the code, the error heuristic
(cursor.ts line 89) fires first: output "connection error" is unparsable
JSON, non-empty, produced with exit code 0, yet the attempt is rejected
(and the failure is not even retryable). -/
theorem c2_lenient_fallback_cex :
    sendPromptOnceClose (fun _ => none) 0 "connection error" "" =
      Except.error ⟨"connection error", false⟩ ∧
    jsTrim "connection error" ≠ "" := by
  constructor
  · rfl
  · decide

/-- C2, amended.  For attempts with exit code 0 whose trimmed output does
not trigger the error heuristic (containing "error" case-insensitively
while not starting with a brace): if the output does not parse as a
structured response but the trimmed text is non-empty, the attempt
succeeds with the raw text; it fails for malformed output only when the
trimmed output is empty. -/
theorem c2_lenient_fallback_amended
    (parseJson : String → Option CursorResponse) (stdout stderr : String)
    (hheur : (containsSubstr (jsToLower (jsTrim stdout)) "error" &&
      !(jsStartsWith (jsTrim stdout) "\x7b")) = false)
    (hparse : parseJson (jsTrim stdout) = none) :
    (jsTrim stdout ≠ "" →
      sendPromptOnceClose parseJson 0 stdout stderr = Except.ok (jsTrim stdout)) ∧
    (jsTrim stdout = "" →
      sendPromptOnceClose parseJson 0 stdout stderr =
        Except.error ⟨"Empty response from Cursor", false⟩) := by
  constructor
  · intro hne
    unfold sendPromptOnceClose
    simp [hheur, hparse, hne]
  · intro he
    rw [he] at hparse
    have hc : containsSubstr (jsToLower "") "error" = false := by decide
    unfold sendPromptOnceClose
    simp [he, hparse, hc]

/-- C2, witness for the amended theorem: plain non-JSON output is accepted
as the response text. -/
theorem c2_lenient_fallback_amended_witness :
    sendPromptOnceClose (fun _ => none) 0 "plain text" "" = Except.ok "plain text" := by
  exact (c2_lenient_fallback_amended (fun _ => none) "plain text" ""
    (by decide) rfl).1 (by decide)

/-- C3: with `maxRetries = 3` and attempts failing retryably until the
first success (0-based attempt `k`, if `k < 4`), the loop makes
`min (k+1) 4` attempts, and the delay before attempt `i` is 0 for `i = 0`
and `min (1000 * 2^(i-1)) 30000` for `i ≥ 1`, i.e. 0, 1000, 2000, 4000 ms
for the four possible attempts. -/
theorem c3_backoff_schedule (outcome : Nat → Except CursorError String) (k : Nat)
    (hfail : ∀ i, i < min k 4 → ∃ e, outcome i = Except.error e ∧ e.retryable = true)
    (hsucc : k < 4 → ∃ s, outcome k = Except.ok s) :
    (sendPromptModel outcome 3).numAttempts = min (k + 1) 4 ∧
    (sendPromptModel outcome 3).delays =
      (List.range (min (k + 1) 4)).map delayBefore ∧
    (List.range 4).map delayBefore = [0, 1000, 2000, 4000] := by
  refine ⟨?_, ?_, by decide⟩ <;>
  · rcases Nat.lt_or_ge k 4 with hk | hk
    · interval_cases k
      · obtain ⟨s, hs⟩ := hsucc (by norm_num)
        simp [sendPromptModel, sendPromptGo, hs, delayBefore, retryDelay, List.range_succ]
      · obtain ⟨e0, he0, hr0⟩ := hfail 0 (by norm_num)
        obtain ⟨s, hs⟩ := hsucc (by norm_num)
        simp [sendPromptModel, sendPromptGo, he0, hr0, hs, delayBefore, retryDelay,
          List.range_succ]
      · obtain ⟨e0, he0, hr0⟩ := hfail 0 (by norm_num)
        obtain ⟨e1, he1, hr1⟩ := hfail 1 (by norm_num)
        obtain ⟨s, hs⟩ := hsucc (by norm_num)
        simp [sendPromptModel, sendPromptGo, he0, hr0, he1, hr1, hs, delayBefore,
          retryDelay, List.range_succ]
      · obtain ⟨e0, he0, hr0⟩ := hfail 0 (by norm_num)
        obtain ⟨e1, he1, hr1⟩ := hfail 1 (by norm_num)
        obtain ⟨e2, he2, hr2⟩ := hfail 2 (by norm_num)
        obtain ⟨s, hs⟩ := hsucc (by norm_num)
        simp [sendPromptModel, sendPromptGo, he0, hr0, he1, hr1, he2, hr2, hs,
          delayBefore, retryDelay, List.range_succ]
    · obtain ⟨e0, he0, hr0⟩ := hfail 0 (by omega)
      obtain ⟨e1, he1, hr1⟩ := hfail 1 (by omega)
      obtain ⟨e2, he2, hr2⟩ := hfail 2 (by omega)
      obtain ⟨e3, he3, hr3⟩ := hfail 3 (by omega)
      have hmin : min (k + 1) 4 = 4 := by omega
      simp [sendPromptModel, sendPromptGo, he0, hr0, he1, hr1, he2, hr2, he3, hr3,
        hmin, delayBefore, retryDelay, List.range_succ]

/-- C3, witness: two retryable timeouts then a success give three attempts
with delays 0, 1000, 2000 ms. -/
theorem c3_backoff_schedule_witness :
    (sendPromptModel (fun i =>
      if i < 2 then Except.error ⟨"timeout", true⟩ else Except.ok "done") 3).numAttempts =
      min (2 + 1) 4 ∧
    (sendPromptModel (fun i =>
      if i < 2 then Except.error ⟨"timeout", true⟩ else Except.ok "done") 3).delays =
      (List.range (min (2 + 1) 4)).map delayBefore ∧
    (List.range 4).map delayBefore = [0, 1000, 2000, 4000] := by
  exact c3_backoff_schedule
    (fun i => if i < 2 then Except.error ⟨"timeout", true⟩ else Except.ok "done") 2
    (fun i hi => by
      have h2 : i < 2 := by simpa using hi
      exact ⟨⟨"timeout", true⟩, by simp [h2], rfl⟩)
    (fun _ => ⟨"done", rfl⟩)

/-- C6: a failure of the very first attempt that is not classified
retryable stops `sendPrompt` after exactly one invocation, with no delay,
and is raised to the caller; and, in general, when every attempt fails,
the loop raises the error of the last attempt it made. -/
theorem c6_nonretryable_immediate (outcome : Nat → Except CursorError String)
    (e : CursorError) (h0 : outcome 0 = Except.error e) (h1 : e.retryable = false) :
    sendPromptModel outcome 3 = ⟨Except.error e, 1, [0]⟩ ∧
    ∀ (out2 : Nat → Except CursorError String) (es : Nat → CursorError) (m : Nat),
      (∀ i, out2 i = Except.error (es i)) →
      (sendPromptModel out2 m).result =
        Except.error (es ((sendPromptModel out2 m).numAttempts - 1)) := by
  constructor
  · rw [sendPromptModel, sendPromptGo_stop outcome 0 3 e h0 (Or.inl h1)]
    rfl
  · intro out2 es m hall
    have h := sendPromptGo_allFail out2 es hall m 0
    simpa [sendPromptModel] using h

/-- C6, witness: a concrete non-retryable first failure yields one attempt
and immediate propagation. -/
theorem c6_nonretryable_immediate_witness :
    sendPromptModel (fun _ => Except.error ⟨"invalid chat id", false⟩) 3 =
      ⟨Except.error ⟨"invalid chat id", false⟩, 1, [0]⟩ := by
  exact (c6_nonretryable_immediate (fun _ => Except.error ⟨"invalid chat id", false⟩)
    ⟨"invalid chat id", false⟩ rfl rfl).1

/-- C8: any attempt whose trimmed output contains "error"
case-insensitively and does not start with a brace is rejected with that
output as the error message — for every exit code, in particular 0, and
even when the output is non-empty. -/
theorem c8_error_heuristic_rejects (parseJson : String → Option CursorResponse)
    (code : Int) (stdout stderr : String)
    (h1 : containsSubstr (jsToLower (jsTrim stdout)) "error" = true)
    (h2 : jsStartsWith (jsTrim stdout) "\x7b" = false) :
    sendPromptOnceClose parseJson code stdout stderr =
      Except.error ⟨jsTrim stdout, isRetryable (jsTrim stdout ++ stderr)⟩ := by
  unfold sendPromptOnceClose
  simp [h1, h2]

/-- C8, witness: zero exit code, non-empty non-JSON output containing
"Error" is rejected with the output text as message. -/
theorem c8_error_heuristic_rejects_witness :
    sendPromptOnceClose (fun _ => none) 0 "Unexpected Error occurred" "" =
      Except.error ⟨"Unexpected Error occurred", false⟩ := by
  exact c8_error_heuristic_rejects (fun _ => none) 0 "Unexpected Error occurred" ""
    (by decide) (by decide)

/-- C4: after any poll cycle, the stored cursor of the polled channel
equals the timestamp of the last message returned by that cycle's history
fetch, and is unchanged when the fetch returned no messages.  This holds
for both the first-poll baseline branch and the processing loop,
whatever the dispatched messages do to the session store. -/
theorem c4_pollChannel_cursor_after_cycle (env : Env) (cfg : BotConfig)
    (st : BotState) (channelId : String) (messages : List SlackMessage) :
    (pollChannel env cfg st channelId messages).state.cursors channelId =
      match messages.getLast? with
      | some m => some m.ts
      | none => st.cursors channelId := by
  unfold pollChannel
  rcases hc : getLastSeenTs st channelId with _ | c <;>
    rcases hl : messages.getLast? with _ | m
  · simpa [hc, hl] using pollMessages_cursor env cfg channelId messages st
  · simp [hc, hl, setLastSeenTs_self]
  · simpa [hc, hl] using pollMessages_cursor env cfg channelId messages st
  · simpa [hc, hl] using pollMessages_cursor env cfg channelId messages st

/-- C5: on the first-ever poll of a channel (absent cursor) whose history
fetch returns at least one message, no message is dispatched, nothing is
posted, and the cursor is set to the newest (last, oldest-first order)
returned message's timestamp. -/
theorem c5_first_poll_baseline (env : Env) (cfg : BotConfig) (st : BotState)
    (channelId : String) (messages : List SlackMessage) (m : SlackMessage)
    (h1 : getLastSeenTs st channelId = none)
    (h2 : messages.getLast? = some m) :
    (pollChannel env cfg st channelId messages).processed = [] ∧
    (pollChannel env cfg st channelId messages).effects = [] ∧
    (pollChannel env cfg st channelId messages).state.cursors channelId = some m.ts := by
  unfold pollChannel
  rw [h1, h2]
  exact ⟨rfl, rfl, setLastSeenTs_self st channelId m.ts⟩

/-- C5, witness: a never-polled channel with two fetched messages
dispatches neither and stores the newer timestamp. -/
theorem c5_first_poll_baseline_witness :
    (pollChannel
      ⟨fun _ => false, fun _ => Except.error "down", none, "now",
        fun _ => Except.error "down", fun _ => Except.error "down",
        fun _ _ => Except.error ⟨"down", false⟩⟩
      ⟨"U7", ""⟩ ⟨fun _ => none, fun _ => none⟩ "chan"
      [⟨"1.0", some "alice", some "hi", none⟩,
       ⟨"2.0", some "bob", some "yo", none⟩]).processed = [] ∧
    (pollChannel
      ⟨fun _ => false, fun _ => Except.error "down", none, "now",
        fun _ => Except.error "down", fun _ => Except.error "down",
        fun _ _ => Except.error ⟨"down", false⟩⟩
      ⟨"U7", ""⟩ ⟨fun _ => none, fun _ => none⟩ "chan"
      [⟨"1.0", some "alice", some "hi", none⟩,
       ⟨"2.0", some "bob", some "yo", none⟩]).effects = [] ∧
    (pollChannel
      ⟨fun _ => false, fun _ => Except.error "down", none, "now",
        fun _ => Except.error "down", fun _ => Except.error "down",
        fun _ _ => Except.error ⟨"down", false⟩⟩
      ⟨"U7", ""⟩ ⟨fun _ => none, fun _ => none⟩ "chan"
      [⟨"1.0", some "alice", some "hi", none⟩,
       ⟨"2.0", some "bob", some "yo", none⟩]).state.cursors "chan" =
      some (SlackMessage.ts ⟨"2.0", some "bob", some "yo", none⟩) := by
  exact c5_first_poll_baseline _ _ _ "chan" _ ⟨"2.0", some "bob", some "yo", none⟩ rfl rfl

/-- C7: a start-session command whose resolved project path does not exist
leaves the entire store untouched (in particular the channel's session
record) and never emits a `createChat` invocation. -/
theorem c7_new_command_nonexistent_frame (env : Env) (cfg : BotConfig)
    (st : BotState) (channelId projectName : String)
    (h : env.pathExists (resolveProjectPath cfg projectName) = false) :
    (handleNewCommand env cfg st channelId projectName).1 = st ∧
    ∀ w, Effect.createChatCall w ∉ (handleNewCommand env cfg st channelId projectName).2 := by
  unfold handleNewCommand
  simp [h]

/-- C7, witness: `/new /nonexistent/path` on a channel with an existing
session changes nothing and never calls the agent. -/
theorem c7_new_command_nonexistent_frame_witness :
    (handleNewCommand
      ⟨fun _ => false, fun _ => Except.ok "chat9", some "5.0", "now",
        fun _ => Except.ok [], fun _ => Except.ok "", fun _ _ => Except.ok "ok"⟩
      ⟨"U7", ""⟩
      ⟨fun _ => none, fun c => if c = "chan" then some ⟨"/old", "id0", "t0"⟩ else none⟩
      "chan" "/nonexistent/path").1 =
      ⟨fun _ => none, fun c => if c = "chan" then some ⟨"/old", "id0", "t0"⟩ else none⟩ ∧
    ∀ w, Effect.createChatCall w ∉
      (handleNewCommand
        ⟨fun _ => false, fun _ => Except.ok "chat9", some "5.0", "now",
          fun _ => Except.ok [], fun _ => Except.ok "", fun _ _ => Except.ok "ok"⟩
        ⟨"U7", ""⟩
        ⟨fun _ => none, fun c => if c = "chan" then some ⟨"/old", "id0", "t0"⟩ else none⟩
        "chan" "/nonexistent/path").2 := by
  exact c7_new_command_nonexistent_frame _ _ _ "chan" "/nonexistent/path" rfl

/-- C9: a first poll that fetches no messages stores no cursor (the store
is completely unchanged), so a later poll that fetches the channel's first
message still takes the first-poll baseline: that message is never
dispatched and only consumed by setting the cursor to its timestamp. -/
theorem c9_empty_first_poll_consumes_first_message (env : Env) (cfg : BotConfig)
    (st : BotState) (channelId : String)
    (h1 : getLastSeenTs st channelId = none) :
    pollChannel env cfg st channelId [] = ⟨st, [], []⟩ ∧
    ∀ (env2 : Env) (cfg2 : BotConfig) (m : SlackMessage),
      (pollChannel env2 cfg2 st channelId [m]).processed = [] ∧
      (pollChannel env2 cfg2 st channelId [m]).effects = [] ∧
      (pollChannel env2 cfg2 st channelId [m]).state.cursors channelId = some m.ts := by
  constructor
  · unfold pollChannel
    rw [h1]
    rfl
  · intro env2 cfg2 m
    unfold pollChannel
    rw [h1]
    exact ⟨rfl, rfl, setLastSeenTs_self st channelId m.ts⟩

/-- C9, witness: an empty first poll leaves the empty store unchanged, and
polling the same store with one fetched message consumes it without
dispatch. -/
theorem c9_empty_first_poll_witness :
    pollChannel
      ⟨fun _ => false, fun _ => Except.error "down", none, "now",
        fun _ => Except.error "down", fun _ => Except.error "down",
        fun _ _ => Except.error ⟨"down", false⟩⟩
      ⟨"U7", ""⟩ ⟨fun _ => none, fun _ => none⟩ "chan" [] =
      ⟨⟨fun _ => none, fun _ => none⟩, [], []⟩ ∧
    (pollChannel
      ⟨fun _ => false, fun _ => Except.error "down", none, "now",
        fun _ => Except.error "down", fun _ => Except.error "down",
        fun _ _ => Except.error ⟨"down", false⟩⟩
      ⟨"U7", ""⟩ ⟨fun _ => none, fun _ => none⟩ "chan"
      [⟨"1.5", some "alice", some "first!", none⟩]).processed = [] ∧
    (pollChannel
      ⟨fun _ => false, fun _ => Except.error "down", none, "now",
        fun _ => Except.error "down", fun _ => Except.error "down",
        fun _ _ => Except.error ⟨"down", false⟩⟩
      ⟨"U7", ""⟩ ⟨fun _ => none, fun _ => none⟩ "chan"
      [⟨"1.5", some "alice", some "first!", none⟩]).state.cursors "chan" =
      some (SlackMessage.ts ⟨"1.5", some "alice", some "first!", none⟩) := by
  have h := c9_empty_first_poll_consumes_first_message
    ⟨fun _ => false, fun _ => Except.error "down", none, "now",
      fun _ => Except.error "down", fun _ => Except.error "down",
      fun _ _ => Except.error ⟨"down", false⟩⟩
    ⟨"U7", ""⟩ ⟨fun _ => none, fun _ => none⟩ "chan" rfl
  refine ⟨h.1, ?_, ?_⟩
  · exact (h.2 _ ⟨"U7", ""⟩ ⟨"1.5", some "alice", some "first!", none⟩).1
  · exact (h.2 _ ⟨"U7", ""⟩ ⟨"1.5", some "alice", some "first!", none⟩).2.2

/-- C10: writing the cursor or the session record of one channel leaves
the cursor and session record of every other channel unchanged — both
store operations rewrite only the entry keyed by their channel. -/
theorem c10_store_update_frame (st : BotState) (c c2 ts : String) (d : ChannelData)
    (h : c ≠ c2) :
    (setLastSeenTs st c2 ts).cursors c = st.cursors c ∧
    (setLastSeenTs st c2 ts).channelData c = st.channelData c ∧
    (saveChannelData st c2 d).channelData c = st.channelData c ∧
    (saveChannelData st c2 d).cursors c = st.cursors c := by
  simp [setLastSeenTs, saveChannelData, h]

/-- C10, witness: updating channel "chanB" leaves channel "chanA"'s cursor
and session record intact in a concrete store. -/
theorem c10_store_update_frame_witness :
    (setLastSeenTs
      ⟨fun c => if c = "chanA" then some "3.0" else none,
       fun c => if c = "chanA" then some ⟨"/pA", "idA", "tA"⟩ else none⟩
      "chanB" "9.0").cursors "chanA" =
      (⟨fun c => if c = "chanA" then some "3.0" else none,
        fun c => if c = "chanA" then some ⟨"/pA", "idA", "tA"⟩ else none⟩ : BotState).cursors "chanA" ∧
    (setLastSeenTs
      ⟨fun c => if c = "chanA" then some "3.0" else none,
       fun c => if c = "chanA" then some ⟨"/pA", "idA", "tA"⟩ else none⟩
      "chanB" "9.0").channelData "chanA" =
      (⟨fun c => if c = "chanA" then some "3.0" else none,
        fun c => if c = "chanA" then some ⟨"/pA", "idA", "tA"⟩ else none⟩ : BotState).channelData "chanA" ∧
    (saveChannelData
      ⟨fun c => if c = "chanA" then some "3.0" else none,
       fun c => if c = "chanA" then some ⟨"/pA", "idA", "tA"⟩ else none⟩
      "chanB" ⟨"/pB", "idB", "tB"⟩).channelData "chanA" =
      (⟨fun c => if c = "chanA" then some "3.0" else none,
        fun c => if c = "chanA" then some ⟨"/pA", "idA", "tA"⟩ else none⟩ : BotState).channelData "chanA" ∧
    (saveChannelData
      ⟨fun c => if c = "chanA" then some "3.0" else none,
       fun c => if c = "chanA" then some ⟨"/pA", "idA", "tA"⟩ else none⟩
      "chanB" ⟨"/pB", "idB", "tB"⟩).cursors "chanA" =
      (⟨fun c => if c = "chanA" then some "3.0" else none,
        fun c => if c = "chanA" then some ⟨"/pA", "idA", "tA"⟩ else none⟩ : BotState).cursors "chanA" := by
  exact c10_store_update_frame _ "chanA" "chanB" "9.0" ⟨"/pB", "idB", "tB"⟩ (by decide)

end SlackCodeAgent
